import Mathlib

/-!
Verification development for the SERP acquisition pipeline of the
seo-keyword-intel repository (backend/scraper.py, backend/main.py,
backend/utils.py).

The embedding is shallow.  A fetched HTML page is modelled as the record
of observations the code makes of it: the raw text (used by the substring
heuristics of detect_blocking) together with the outcome of each
BeautifulSoup query the code performs (result containers, h3 nodes,
presence of the .VwiC3b and div.g selectors).  Network calls, the
Selenium driver, the filesystem and timestamps are modelled by explicit
environment records: an AttemptEnv describes what one browser attempt
would observe (which steps raise, which pages are seen) and a FetchEnv
describes provider availability and API responses.  File writes are
modelled as returning the path they would compute; time.sleep and
logging have no semantic content and are dropped.
-/

namespace SeoIntel

/-! ## String helpers (Python str.lower and the `in` operator) -/

/-- Model of Python str.lower, character by character. -/
def pyLower (s : String) : String :=
  String.mk (s.data.map Char.toLower)

/-- Contiguous sublist test on character lists. -/
def charsInfix (needle : List Char) : List Char → Bool
  | [] => needle.isEmpty
  | a :: as => needle.isPrefixOf (a :: as) || charsInfix needle as

/-- Model of the Python `needle in hay` substring test. -/
def strContains (hay needle : String) : Bool :=
  charsInfix needle.data hay.data

/-- Python truthiness filter for an optional string: None and the empty
string are falsy. -/
def truthyStr : Option String → Option String
  | none => none
  | some s => if s = "" then none else some s

/-- Model of the Python expression `a or b or ""` on two optional
strings. -/
def pyOr2 (a b : Option String) : String :=
  match truthyStr a with
  | some s => s
  | none =>
    match truthyStr b with
    | some s => s
    | none => ""

/-! ## Page model

One fetched page, as observed by the code.  `raw` is the page text fed
to the substring heuristics; the remaining fields record the outcome of
each DOM query `detect_blocking` and `extract_serp_from_html` perform. -/

/-- One result container matched by the selector
`div.g, div[data-hveid], div[data-ved]`: its first h3 text (if any), the
href of its first link (if any) and the text of its first snippet
element (if any). -/
structure ResultBlock where
  h3 : Option String
  href : Option String
  snippet : Option String
deriving DecidableEq

/-- One h3 node found by `soup.find_all("h3")`, with the href of its
enclosing a[href] parent if one exists. -/
structure H3Node where
  text : String
  parentHref : Option String
deriving DecidableEq

/-- A fetched page: raw text plus the outcome of every DOM query the
scraper performs on it. -/
structure Page where
  raw : String
  blocks : List ResultBlock
  h3s : List H3Node
  hasVwiC3b : Bool
  hasDivG : Bool
deriving DecidableEq

/-! ## detect_blocking (scraper.py lines 97-122) -/

/-- Model of detect_blocking: ordered substring heuristics over the
lowercased text, then the structural no-result-nodes check. -/
def detect_blocking (p : Page) : Bool × Option String :=
  if p.raw = "" then (true, some "empty_html")
  else
    let lower := pyLower p.raw
    if strContains lower "unusual traffic" ||
        strContains lower "our systems have detected unusual traffic" then
      (true, some "unusual_traffic_message")
    else if strContains lower "recaptcha" || strContains lower "g-recaptcha" then
      (true, some "recaptcha")
    else if strContains lower "please enable javascript" && strContains lower "cloudflare" then
      (true, some "cloudflare_js_challenge")
    else if strContains lower "sorry" &&
        strContains lower "our systems have detected unusual traffic" then
      (true, some "sorry_unusual")
    else if strContains lower "are you a robot" || strContains lower "press and hold" then
      (true, some "robot_challenge")
    else if p.h3s.isEmpty && !p.hasVwiC3b && !p.hasDivG then
      (true, some "no_result_nodes")
    else (false, none)

/-! ## extract_serp_from_html (scraper.py lines 244-275) -/

/-- One extracted organic result, the dict
with keys title, snippet, url, position. -/
structure SerpItem where
  title : String
  snippet : String
  url : String
  position : Nat
deriving DecidableEq

/-- Primary extraction loop over the result containers.  `pos` is the
running position counter (starts at 1) and `c` the number of records
already emitted (len(out)); the loop breaks as soon as `c` reaches
`maxItems` and skips containers without an h3. -/
def extractPrimary (maxItems : Nat) : List ResultBlock → Nat → Nat → List SerpItem
  | [], _, _ => []
  | b :: bs, pos, c =>
    if maxItems ≤ c then []
    else
      match b.h3 with
      | none => extractPrimary maxItems bs pos c
      | some t =>
        { title := t, snippet := b.snippet.getD "", url := b.href.getD "",
          position := pos } :: extractPrimary maxItems bs (pos + 1) (c + 1)

/-- Fallback extraction loop over all h3 nodes, used only when the
primary loop produced nothing; position is len(out)+1. -/
def extractFallback (maxItems : Nat) : List H3Node → Nat → List SerpItem
  | [], _ => []
  | h :: hs, c =>
    if maxItems ≤ c then []
    else
      { title := h.text, snippet := "", url := h.parentHref.getD "",
        position := c + 1 } :: extractFallback maxItems hs (c + 1)

/-- Model of extract_serp_from_html: primary pass over result
containers, then the global h3 fallback when the primary pass is
empty. -/
def extract_serp_from_html (p : Page) (maxItems : Nat) : List SerpItem :=
  if (extractPrimary maxItems p.blocks 1 0).isEmpty then extractFallback maxItems p.h3s 0
  else extractPrimary maxItems p.blocks 1 0

/-! ## URL unwrapping (utils.py lines 10, 51-76)

Model of the regex URL_CLEAN_RE, anchored at the start of the string:
the literal prefix /url?q= followed by http:// or https:// followed by
one or more characters other than an ampersand; the captured group is
the scheme plus those characters. -/

/-- Strip a literal pattern from the front of a character list,
returning the remainder when the whole pattern matches. -/
def stripPattern : List Char → List Char → Option (List Char)
  | [], l => some l
  | _ :: _, [] => none
  | p :: ps, a :: as => if a = p then stripPattern ps as else none

/-- The regex match on the character list of the url: the literal
prefix, then the scheme with an optional s, then the longest nonempty
run of characters other than an ampersand; the captured group is the
scheme together with that run. -/
def urlCleanMatchChars (cs : List Char) : Option String :=
  match stripPattern "/url?q=".data cs with
  | none => none
  | some rest =>
    match stripPattern "https://".data rest with
    | some tail =>
      if (tail.takeWhile (· != '&')).isEmpty then none
      else some (String.mk ("https://".data ++ tail.takeWhile (· != '&')))
    | none =>
      match stripPattern "http://".data rest with
      | some tail =>
        if (tail.takeWhile (· != '&')).isEmpty then none
        else some (String.mk ("http://".data ++ tail.takeWhile (· != '&')))
      | none => none

/-- Model of URL_CLEAN_RE.match(url): returns the captured destination
group when the wrapper pattern matches at the start of the string. -/
def urlCleanMatch (url : String) : Option String :=
  urlCleanMatchChars url.data

/-- Model of the url normalization applied per row by
results_to_dataframe: replace the url by the captured destination when
the redirect-wrapper regex matches. -/
def dfNormalizeUrl (url : String) : String :=
  match urlCleanMatch url with
  | some u => u
  | none => url

/-! ## Debug evidence files (scraper.py lines 318-326)

save_debug_html writes the page to
DEBUG_DIR/sanitized-keyword_timestamp.html and returns that path.  The
write is modelled as returning the computed path; the timestamp is an
environment input. -/

/-- Keyword sanitization from save_debug_html: keep alphanumeric
characters, replace the rest by an underscore, truncate to 80. -/
def sanitizeKeyword (kw : String) : String :=
  String.mk ((kw.data.map (fun c => if c.isAlphanum then c else '_')).take 80)

/-- Model of save_debug_html: the computed debug path (DEBUG_DIR
defaults to debug). -/
def save_debug_html (keyword ts : String) : String :=
  "debug/" ++ sanitizeKeyword keyword ++ "_" ++ ts ++ ".html"

/-! ## FetchOutcome: the value one decorated attempt returns
(scraper.py lines 336-432)

fetch_serp_headful returns (True, results) on success and
(False, payload) otherwise, where the payload dict carries blocked
reason, optional error text and optional debug path. -/

/-- Outcome of one browser fetch attempt. -/
inductive FetchOutcome where
  | success (records : List SerpItem)
  | failure (blockedReason : Option String) (error : Option String)
      (debugPath : Option String)
deriving DecidableEq

/-- Everything one browser attempt observes of the outside world: which
unguarded steps raise, the page text seen at the two classification
points, whether the page source is still readable inside the exception
handler, the exception text and the timestamp used for debug files. -/
structure AttemptEnv where
  makeDriverFails : Bool
  navRaises : Bool
  scrollRaises : Bool
  page1 : Page
  page2 : Page
  exceptHtmlReadable : Bool
  exceptHtml : String
  errMsg : String
  ts : String

/-- Result of one attempt together with its resource trace: whether a
driver was created and whether driver.quit was invoked before the
attempt returned (the finally clause of fetch_serp_headful). -/
structure AttemptResult where
  outcome : FetchOutcome
  driverCreated : Bool
  driverQuit : Bool

/-- The except-branch of fetch_serp_headful: best-effort read of the
page source, debug save only when that text is nonempty. -/
def exceptionOutcome (kw : String) (e : AttemptEnv) : FetchOutcome :=
  .failure (some "exception") (some e.errMsg)
    (if (if e.exceptHtmlReadable then e.exceptHtml else "") = "" then none
     else some (save_debug_html kw e.ts))

/-- Model of one undecorated call of fetch_serp_headful.  Each exit path
records its resource trace: when make_chrome_driver raises, no driver
exists and the finally clause quits nothing; on every other path a
driver was created and the finally clause invokes driver.quit.  Steps
that the source wraps in their own try/except (set_window_size, the
neutral-page navigation, the consent click, the explicit h3 wait) are
dropped since their failures are swallowed with no observable effect. -/
def runAttempt (kw : String) (maxItems : Nat) (e : AttemptEnv) : AttemptResult :=
  if e.makeDriverFails then
    { outcome := .failure (some "exception") (some e.errMsg) none,
      driverCreated := false, driverQuit := false }
  else if e.navRaises then
    { outcome := exceptionOutcome kw e, driverCreated := true, driverQuit := true }
  else if (detect_blocking e.page1).1 then
    { outcome := .failure (detect_blocking e.page1).2 none (some (save_debug_html kw e.ts)),
      driverCreated := true, driverQuit := true }
  else if e.scrollRaises then
    { outcome := exceptionOutcome kw e, driverCreated := true, driverQuit := true }
  else if (detect_blocking e.page2).1 then
    { outcome := .failure (detect_blocking e.page2).2 none (some (save_debug_html kw e.ts)),
      driverCreated := true, driverQuit := true }
  else if (extract_serp_from_html e.page2 maxItems).isEmpty then
    { outcome := .failure (some "no_results") none (some (save_debug_html kw e.ts)),
      driverCreated := true, driverQuit := true }
  else
    { outcome := .success (extract_serp_from_html e.page2 maxItems),
      driverCreated := true, driverQuit := true }

/-- The value one undecorated attempt returns. -/
def fetch_serp_headful (kw : String) (maxItems : Nat) (e : AttemptEnv) : FetchOutcome :=
  (runAttempt kw maxItems e).outcome

/-! ## The tenacity retry wrapper (scraper.py lines 328-336)

The decorator is retry(stop=stop_after_attempt(4),
retry=retry_if_result(_should_retry)).  _should_retry retries on a
falsey success flag.  Tenacity returns the result of an attempt whose
result does not satisfy the retry predicate; when the stop condition
fires while the predicate still asks for a retry, tenacity raises
RetryError around the last outcome (there is no retry_error_callback and
reraise is left False). -/

/-- Model of _should_retry: retry whenever the attempt did not succeed.
The wrapped function never returns None, so the None case of the source
predicate cannot arise. -/
def shouldRetryOutcome : FetchOutcome → Bool
  | .success _ => false
  | .failure _ _ _ => true

/-- What the decorated call produces: a returned outcome, or a raised
RetryError wrapping the last attempt outcome. -/
inductive RetryOutcome where
  | result (o : FetchOutcome)
  | retryError (last : FetchOutcome)
deriving DecidableEq

/-- The tenacity loop.  `n` is the current attempt number and the fuel
counts the attempts still allowed beyond the current one; the second
component of the result is the number of the last attempt invoked, equal
to the total number of invocations. -/
def tenacityGo (attempt : Nat → FetchOutcome) : Nat → Nat → RetryOutcome × Nat
  | 0, n =>
    if shouldRetryOutcome (attempt n) then (.retryError (attempt n), n)
    else (.result (attempt n), n)
  | fuel + 1, n =>
    if shouldRetryOutcome (attempt n) then tenacityGo attempt fuel (n + 1)
    else (.result (attempt n), n)

/-- The decorated attempt function as its caller sees it: attempts are
numbered from 1 and at most maxAttempts are made. -/
def tenacityRun (attempt : Nat → FetchOutcome) (maxAttempts : Nat) : RetryOutcome × Nat :=
  tenacityGo attempt (maxAttempts - 1) 1

/-! ## API providers (scraper.py lines 280-313)

serpapi_search and google_cse_search issue an HTTP request and build
rows from the returned JSON items.  A call is modelled by its observable
effect: either the list of raw items of the parsed response, or a raised
exception (network error, raise_for_status, malformed JSON). -/

/-- One raw item of an API response, holding the JSON keys the code
reads.  positionField models item.get with the position key, used by
serpapi_search as a title fallback. -/
structure ApiItem where
  title : Option String
  positionField : Option String
  snippet : Option String
  description : Option String
  link : Option String
  url : Option String
deriving DecidableEq

/-- Observable effect of one API call. -/
inductive ApiCall where
  | ok (items : List ApiItem)
  | raises
deriving DecidableEq

/-- One unified provider row with a 1-based position. -/
structure ApiRow where
  title : String
  snippet : String
  url : String
  position : Nat
deriving DecidableEq

/-- Row-building loop of serpapi_search over the sliced items. -/
def serpapiGo : List ApiItem → Nat → List ApiRow
  | [], _ => []
  | it :: its, pos =>
    { title := pyOr2 it.title it.positionField,
      snippet := pyOr2 it.snippet it.description,
      url := pyOr2 it.link it.url,
      position := pos } :: serpapiGo its (pos + 1)

/-- Model of serpapi_search on a successfully parsed response: slice to
max_items, then number rows from 1. -/
def serpapi_search (items : List ApiItem) (maxItems : Nat) : List ApiRow :=
  serpapiGo (items.take maxItems) 1

/-- Row-building loop of google_cse_search over the sliced items. -/
def cseGo : List ApiItem → Nat → List ApiRow
  | [], _ => []
  | it :: its, pos =>
    { title := it.title.getD "", snippet := it.snippet.getD "",
      url := it.link.getD "", position := pos } :: cseGo its (pos + 1)

/-- Model of google_cse_search on a successfully parsed response. -/
def google_cse_search (items : List ApiItem) (maxItems : Nat) : List ApiRow :=
  cseGo (items.take maxItems) 1

/-! ## fetch_serp (scraper.py lines 437-496) -/

/-- One unified record as produced by fetch_serp: the dict with keys
keyword, title, snippet, url, position, source, blocked, debug_path and,
for the sentinel, blocked_reason.  An absent key is modelled as none. -/
structure URecord where
  keyword : String
  title : String
  snippet : String
  url : String
  position : Nat
  source : String
  blocked : Bool
  debug_path : Option String
  blocked_reason : Option String
deriving DecidableEq

/-- Unification of a serpapi row (source serpapi). -/
def unifySerpapi (kw : String) (r : ApiRow) : URecord :=
  { keyword := kw, title := r.title, snippet := r.snippet, url := r.url,
    position := r.position, source := "serpapi", blocked := false,
    debug_path := none, blocked_reason := none }

/-- Unification of a browser result (source selenium). -/
def unifySelenium (kw : String) (r : SerpItem) : URecord :=
  { keyword := kw, title := r.title, snippet := r.snippet, url := r.url,
    position := r.position, source := "selenium", blocked := false,
    debug_path := none, blocked_reason := none }

/-- Unification of a Google CSE row (source google_cse). -/
def unifyCse (kw : String) (r : ApiRow) : URecord :=
  { keyword := kw, title := r.title, snippet := r.snippet, url := r.url,
    position := r.position, source := "google_cse", blocked := false,
    debug_path := none, blocked_reason := none }

/-- The sentinel blocked record built when no fallback succeeded
(scraper.py lines 494-496). -/
def sentinelRecord (kw : String) (reason dp : Option String) : URecord :=
  { keyword := kw, title := "", snippet := "", url := "", position := 0,
    source := "blocked", blocked := true, debug_path := dp,
    blocked_reason := reason }

/-- Provider availability and responses for one fetch_serp call.
serpApiKey and cseConfigured model the truthiness of the environment
keys; the three ApiCall fields give the observable effect of the
corresponding HTTP call if it is made; attempts gives the environment of
the n-th browser attempt. -/
structure FetchEnv where
  serpApiKey : Bool
  cseConfigured : Bool
  apiFirstCall : ApiCall
  fallbackSerpapiCall : ApiCall
  cseCall : ApiCall
  attempts : Nat → AttemptEnv

/-- The Google CSE fallback and the sentinel tail of fetch_serp (lines
484-496): try CSE when configured, otherwise or on exception return the
single sentinel record. -/
def fallbackCse (kw : String) (maxItems : Nat) (env : FetchEnv)
    (reason dp : Option String) : List URecord :=
  if env.cseConfigured then
    match env.cseCall with
    | .ok items => (google_cse_search items maxItems).map (unifyCse kw)
    | .raises => [sentinelRecord kw reason dp]
  else [sentinelRecord kw reason dp]

/-- The fallback cascade of fetch_serp after a failed browser phase
(lines 472-496): SerpAPI when a key is present, then Google CSE, then
the sentinel record carrying the reason and debug path of the browser
failure. -/
def fallbackAfterHeadful (kw : String) (maxItems : Nat) (env : FetchEnv)
    (reason dp : Option String) : List URecord :=
  if env.serpApiKey then
    match env.fallbackSerpapiCall with
    | .ok items => (serpapi_search items maxItems).map (unifySerpapi kw)
    | .raises => fallbackCse kw maxItems env reason dp
  else fallbackCse kw maxItems env reason dp

/-- The browser phase of fetch_serp and everything after it (lines
457-496).  The decorated fetch_serp_headful either returns an outcome,
which line 458 destructures, or raises RetryError, which no handler in
fetch_serp catches, so the call site propagates it (modelled as the
error constructor). -/
def fetch_serp_main_path (kw : String) (maxItems : Nat) (env : FetchEnv) :
    Except String (List URecord) :=
  match tenacityRun (fun n => fetch_serp_headful kw maxItems (env.attempts n)) 4 with
  | (.result (.success recs), _) => .ok (recs.map (unifySelenium kw))
  | (.result (.failure reason _err dp), _) =>
    .ok (fallbackAfterHeadful kw maxItems env reason dp)
  | (.retryError _, _) => .error "tenacity.RetryError"

/-- Model of fetch_serp: the api_first branch (lines 446-455) tries
SerpAPI before the browser when a key is configured, swallowing its
exceptions; everything else goes through the browser phase. -/
def fetch_serp (kw : String) (maxItems : Nat) (apiFirst : Bool) (env : FetchEnv) :
    Except String (List URecord) :=
  if apiFirst && env.serpApiKey then
    match env.apiFirstCall with
    | .ok items => .ok ((serpapi_search items maxItems).map (unifySerpapi kw))
    | .raises => fetch_serp_main_path kw maxItems env
  else fetch_serp_main_path kw maxItems env

/-! ## scrape_keywords_wrapper (main.py lines 124-176) -/

/-- Per-row normalization done by scrape_keywords_wrapper.  Every key is
present on every record fetch_serp builds, so each get with a default
resolves to the stored field; int(position or 0) is the identity on a
natural number. -/
def wrapperNormalize (_kw : String) (r : URecord) : URecord :=
  { keyword := r.keyword, title := r.title, snippet := r.snippet,
    url := r.url, position := r.position, source := r.source,
    blocked := r.blocked, debug_path := r.debug_path,
    blocked_reason := r.blocked_reason }

/-- The keyword loop of scrape_keywords_wrapper.  `i` indexes the
keyword so each iteration reads its own fetch environment; an exception
raised by fetch_serp propagates (there is no handler around it). -/
def scrapeGo (per : Nat) (apiFirst : Bool) (envs : Nat → FetchEnv) :
    List String → Nat → Except String (List URecord)
  | [], _ => .ok []
  | kw :: rest, i =>
    match fetch_serp kw per apiFirst (envs i) with
    | .error e => .error e
    | .ok rows =>
      match scrapeGo per apiFirst envs rest (i + 1) with
      | .error e => .error e
      | .ok tail => .ok (rows.map (wrapperNormalize kw) ++ tail)

/-- Model of scrape_keywords_wrapper: sequential keyword loop
accumulating normalized rows in submission order (sleeps and the
best-effort raw persistence have no observable effect on the returned
list). -/
def scrape_keywords_wrapper (keywords : List String) (per : Nat)
    (apiFirst : Bool) (envs : Nat → FetchEnv) : Except String (List URecord) :=
  scrapeGo per apiFirst envs keywords 0

/-! ## Concrete fixtures used by witnesses and counterexamples -/

/-- A page whose text is exactly a CAPTCHA marker and which has no
recognizable result container. -/
def captchaPage : Page :=
  { raw := "recaptcha", blocks := [], h3s := [], hasVwiC3b := false, hasDivG := false }

/-- A page carrying both the unusual-traffic phrase and a CAPTCHA
marker, with no recognizable result container. -/
def mixedSignalPage : Page :=
  { raw := "unusual traffic g-recaptcha", blocks := [], h3s := [],
    hasVwiC3b := false, hasDivG := false }

/-- A result container repeated twice with identical title, link and
snippet. -/
def dupBlock : ResultBlock := { h3 := some "t", href := some "u", snippet := some "s" }

/-- A page containing the same result container twice. -/
def dupPage : Page :=
  { raw := "x", blocks := [dupBlock, dupBlock], h3s := [], hasVwiC3b := false,
    hasDivG := true }

/-- A page with one result container whose link is the redirect wrapper
around a destination given by its characters after the scheme. -/
def wrapperPage (t : String) (body : List Char) : Page :=
  { raw := "x",
    blocks := [{ h3 := some t,
                 href := some (String.mk ("/url?q=https://".data ++ body)),
                 snippet := none }],
    h3s := [], hasVwiC3b := false, hasDivG := true }

/-! ## Lemmas about extraction -/

lemma extractPrimary_length (bs : List ResultBlock) :
    ∀ m pos c, (extractPrimary m bs pos c).length ≤ m - c := by
  induction bs with
  | nil => intro m pos c; simp [extractPrimary]
  | cons b bs ih =>
    intro m pos c
    simp only [extractPrimary]
    split
    · simp
    · split
      · exact ih m pos c
      · rename_i hmc _ _
        simp only [List.length_cons]
        have h2 := ih m (pos + 1) (c + 1)
        omega

lemma extractPrimary_positions (bs : List ResultBlock) :
    ∀ m pos c, (extractPrimary m bs pos c).map (fun r => r.position) =
      List.range' pos (extractPrimary m bs pos c).length := by
  induction bs with
  | nil => intro m pos c; simp [extractPrimary]
  | cons b bs ih =>
    intro m pos c
    simp only [extractPrimary]
    split
    · simp
    · split
      · exact ih m pos c
      · simp only [List.map_cons, List.length_cons, List.range'_succ]
        rw [ih m (pos + 1) (c + 1)]

lemma extractFallback_length (hs : List H3Node) :
    ∀ m c, (extractFallback m hs c).length ≤ m - c := by
  induction hs with
  | nil => intro m c; simp [extractFallback]
  | cons h hs ih =>
    intro m c
    simp only [extractFallback]
    split
    · simp
    · rename_i hmc
      simp only [List.length_cons]
      have h2 := ih m (c + 1)
      omega

lemma extractFallback_positions (hs : List H3Node) :
    ∀ m c, (extractFallback m hs c).map (fun r => r.position) =
      List.range' (c + 1) (extractFallback m hs c).length := by
  induction hs with
  | nil => intro m c; simp [extractFallback]
  | cons h hs ih =>
    intro m c
    simp only [extractFallback]
    split
    · simp
    · simp only [List.map_cons, List.length_cons, List.range'_succ]
      rw [ih m (c + 1)]

lemma extract_length_le (p : Page) (N : Nat) :
    (extract_serp_from_html p N).length ≤ N := by
  unfold extract_serp_from_html
  split
  · simpa using extractFallback_length p.h3s N 0
  · simpa using extractPrimary_length p.blocks N 1 0

lemma extract_positions (p : Page) (N : Nat) :
    (extract_serp_from_html p N).map (fun r => r.position) =
      List.range' 1 (extract_serp_from_html p N).length := by
  unfold extract_serp_from_html
  split
  · simpa using extractFallback_positions p.h3s N 0
  · simpa using extractPrimary_positions p.blocks N 1 0

lemma extract_pos_ge_one (p : Page) (N : Nat) (r : SerpItem)
    (h : r ∈ extract_serp_from_html p N) : 1 ≤ r.position := by
  have h2 : r.position ∈ (extract_serp_from_html p N).map (fun r => r.position) :=
    List.mem_map_of_mem _ h
  rw [extract_positions] at h2
  exact (List.mem_range'_1.mp h2).1

/-! ## Claim C6 -/

/-- C6 (confirmed): for every page content and every bound N, extract
returns at most N records and the positions of the returned records are
exactly the sequence 1, 2, ..., length in order, with no gaps or
repeats. -/
theorem claim_C6 (p : Page) (N : Nat) :
    (extract_serp_from_html p N).length ≤ N ∧
    (extract_serp_from_html p N).map (fun r => r.position) =
      List.range' 1 (extract_serp_from_html p N).length :=
  ⟨extract_length_le p N, extract_positions p N⟩

/-! ## Claim C7 -/

/-- C7 counterexample: extract performs no deduplication, so a page
whose result container is repeated yields two records with the same
title, url and snippet triple, refuting the claim at a concrete
input. -/
theorem claim_C7_cex :
    ¬ (extract_serp_from_html dupPage 10).Pairwise
        (fun a b => (a.title, a.url, a.snippet) ≠ (b.title, b.url, b.snippet)) := by
  intro h
  have he : extract_serp_from_html dupPage 10 =
      [{ title := "t", snippet := "s", url := "u", position := 1 },
       { title := "t", snippet := "s", url := "u", position := 2 }] := rfl
  rw [he] at h
  rcases List.pairwise_cons.mp h with ⟨hhead, _⟩
  exact hhead _ (List.mem_cons_self _ _) rfl

/-- C7 (amended): extract does not deduplicate on the title, url and
snippet triple; repeated containers each yield a record, and distinct
records are distinguished only by their position values, which never
repeat. -/
theorem claim_C7 (p : Page) (N : Nat) :
    ((extract_serp_from_html p N).map (fun r => r.position)).Nodup := by
  rw [extract_positions]
  exact List.nodup_range' 1 _

/-! ## Claim C5 -/

/-- C5 counterexample: a page containing a CAPTCHA marker together with
the unusual-traffic phrase is classified with the unusual-traffic
reason, not the CAPTCHA reason, refuting the claim as universally
stated. -/
theorem claim_C5_cex :
    strContains (pyLower mixedSignalPage.raw) "recaptcha" = true ∧
    detect_blocking mixedSignalPage ≠ (true, some "recaptcha") := by
  exact ⟨by decide, by decide⟩

/-- C5 (amended): for every page content containing a CAPTCHA marker on
which no earlier rule fires (no unusual-traffic phrasing), classify
returns blocked with the CAPTCHA reason; in particular the adversarial
rules are checked before the structural no-result-nodes rule, so the
result does not depend on whether the page has any result container. -/
theorem claim_C5 (p : Page)
    (h1 : strContains (pyLower p.raw) "recaptcha" = true)
    (h2 : strContains (pyLower p.raw) "unusual traffic" = false)
    (h3 : strContains (pyLower p.raw) "our systems have detected unusual traffic" = false) :
    detect_blocking p = (true, some "recaptcha") := by
  have hr : ¬ p.raw = "" := by
    intro he
    rw [he] at h1
    exact absurd h1 (by decide)
  simp [detect_blocking, hr, h1, h2, h3]

/-- C5 witness: the amended theorem applied to a concrete CAPTCHA page
that has no recognizable result container. -/
theorem claim_C5_witness : detect_blocking captchaPage = (true, some "recaptcha") :=
  claim_C5 captchaPage (by decide) (by decide) (by decide)

/-! ## Claim C8 -/

lemma stripPattern_append (pre tail : List Char) :
    stripPattern pre (pre ++ tail) = some tail := by
  induction pre with
  | nil => rfl
  | cons a as ih => simp [stripPattern, ih]

lemma urlCleanMatch_wrapper (body : List Char) (h1 : body ≠ [])
    (h2 : ∀ c ∈ body, c ≠ '&') :
    urlCleanMatch (String.mk ("/url?q=https://".data ++ body)) =
      some (String.mk ("https://".data ++ body)) := by
  have htw : body.takeWhile (· != '&') = body := by
    rw [List.takeWhile_eq_self_iff]
    intro x hx
    simpa using h2 x hx
  have hne : body.isEmpty = false := by
    cases body with
    | nil => exact absurd rfl h1
    | cons a as => rfl
  have hsplit : ("/url?q=https://".data : List Char) =
      "/url?q=".data ++ "https://".data := by decide
  have hdata : (String.mk ("/url?q=https://".data ++ body)).data =
      "/url?q=".data ++ ("https://".data ++ body) := by
    show "/url?q=https://".data ++ body = _
    rw [hsplit, List.append_assoc]
  unfold urlCleanMatch
  rw [hdata]
  unfold urlCleanMatchChars
  rw [stripPattern_append]
  dsimp only
  rw [stripPattern_append]
  dsimp only
  rw [htw]
  simp [hne]

/-- C8 counterexample: extract returns the raw redirect-wrapper href
unchanged, while the downstream dataframe normalization is what unwraps
it, so the url field of the extracted record is not the destination
URL. -/
theorem claim_C8_cex :
    (extract_serp_from_html (wrapperPage "t" "example.com/a&sa=u".data) 10).map
        (fun r => r.url) =
      [String.mk ("/url?q=https://".data ++ "example.com/a&sa=u".data)] ∧
    dfNormalizeUrl (String.mk ("/url?q=https://".data ++ "example.com/a&sa=u".data)) =
      "https://example.com/a" ∧
    String.mk ("/url?q=https://".data ++ "example.com/a&sa=u".data) ≠
      "https://example.com/a" := by
  exact ⟨rfl, by decide, by decide⟩

/-- C8 (amended): for every result link whose href is a redirect
wrapper, the record returned by extract carries the wrapper href
unchanged, and the url normalization of results_to_dataframe maps it to
the unwrapped destination URL. -/
theorem claim_C8 (t : String) (body : List Char) (h1 : body ≠ [])
    (h2 : ∀ c ∈ body, c ≠ '&') :
    (extract_serp_from_html (wrapperPage t body) 10).map (fun r => r.url) =
      [String.mk ("/url?q=https://".data ++ body)] ∧
    dfNormalizeUrl (String.mk ("/url?q=https://".data ++ body)) =
      String.mk ("https://".data ++ body) := by
  constructor
  · rfl
  · unfold dfNormalizeUrl
    rw [urlCleanMatch_wrapper body h1 h2]

/-- C8 witness: the amended theorem applied to a concrete wrapped
link. -/
theorem claim_C8_witness :
    (extract_serp_from_html (wrapperPage "t" "example.com/a".data) 10).map
        (fun r => r.url) =
      [String.mk ("/url?q=https://".data ++ "example.com/a".data)] ∧
    dfNormalizeUrl (String.mk ("/url?q=https://".data ++ "example.com/a".data)) =
      String.mk ("https://".data ++ "example.com/a".data) :=
  claim_C8 "t" "example.com/a".data (by decide) (by decide)

/-! ## More fixtures: environments for the fetch layer -/

/-- A browser attempt that sees a CAPTCHA page at the first
classification point (a blocked attempt). -/
def blockedAttemptEnv : AttemptEnv :=
  { makeDriverFails := false, navRaises := false, scrollRaises := false,
    page1 := captchaPage, page2 := captchaPage, exceptHtmlReadable := false,
    exceptHtml := "", errMsg := "", ts := "20250101T000000" }

/-- A raw API item with title, snippet and link present. -/
def apiItemT : ApiItem :=
  { title := some "T", positionField := none, snippet := some "S",
    description := none, link := some "U", url := none }

/-- Environment in which every browser attempt is blocked while both
API fallbacks are configured and healthy. -/
def healthyFallbackEnv : FetchEnv :=
  { serpApiKey := true, cseConfigured := true, apiFirstCall := .raises,
    fallbackSerpapiCall := .ok [apiItemT], cseCall := .ok [apiItemT],
    attempts := fun _ => blockedAttemptEnv }

/-- Environment with no API provider configured and every browser
attempt blocked: every available provider fails. -/
def noApiEnv : FetchEnv :=
  { serpApiKey := false, cseConfigured := false, apiFirstCall := .raises,
    fallbackSerpapiCall := .raises, cseCall := .raises,
    attempts := fun _ => blockedAttemptEnv }

/-- Environment in which the api-first SerpAPI call succeeds with a
response containing no organic results. -/
def emptyApiEnv : FetchEnv :=
  { serpApiKey := true, cseConfigured := false, apiFirstCall := .ok [],
    fallbackSerpapiCall := .raises, cseCall := .raises,
    attempts := fun _ => blockedAttemptEnv }

/-- Environment in which the api-first SerpAPI call succeeds with one
organic result. -/
def apiOkEnv : FetchEnv :=
  { serpApiKey := true, cseConfigured := false, apiFirstCall := .ok [apiItemT],
    fallbackSerpapiCall := .raises, cseCall := .raises,
    attempts := fun _ => blockedAttemptEnv }

/-! ## Claim C3 -/

/-- C3 (confirmed): on every exit path of one browser fetch attempt,
driver.quit is invoked exactly when a driver was created; in particular
every path on which a driver exists releases it before the attempt
returns, whether it ends in success, detected block, empty extraction or
a raised exception. -/
theorem claim_C3 (kw : String) (maxItems : Nat) (e : AttemptEnv) :
    (runAttempt kw maxItems e).driverQuit = (runAttempt kw maxItems e).driverCreated := by
  unfold runAttempt
  repeat' split
  all_goals rfl

/-! ## Claim C2 -/

/-- C2 (code bug, evaluated): with maxAttempts four and an attempt
function failing on every call, the wrapper makes exactly four
invocations but then raises RetryError wrapping the fourth failure
instead of returning it; with an attempt function succeeding on the
third call, the wrapper returns that success after exactly three
invocations. -/
theorem claim_C2 :
    tenacityRun (fun _ => .failure (some "recaptcha") none none) 4 =
      (.retryError (.failure (some "recaptcha") none none), 4) ∧
    tenacityRun (fun n => if n < 3 then .failure (some "recaptcha") none none
      else .success []) 4 = (.result (.success []), 3) :=
  ⟨rfl, rfl⟩

/-! ## Claim C1 -/

/-- C1 (code bug, evaluated): with every browser attempt blocked and
both API fallback providers configured and healthy, fetch_serp
propagates RetryError to its caller instead of trying the fallbacks or
returning the sentinel record. -/
theorem claim_C1 :
    fetch_serp "k" 10 false healthyFallbackEnv = .error "tenacity.RetryError" :=
  rfl

/-! ## The record invariant and the lemmas feeding C9 and C4 -/

/-- The data-model invariant of one unified record: a blocked record is
the empty-field sentinel, an unblocked record names a real provider and
has a 1-based position. -/
def recordInvariant (r : URecord) : Prop :=
  (r.blocked = true → r.source = "blocked" ∧ r.title = "" ∧ r.snippet = "" ∧ r.url = "") ∧
  (r.blocked = false →
    (r.source = "selenium" ∨ r.source = "serpapi" ∨ r.source = "google_cse") ∧
    1 ≤ r.position)

lemma serpapiGo_pos (its : List ApiItem) :
    ∀ pos r, r ∈ serpapiGo its pos → pos ≤ r.position := by
  induction its with
  | nil => intro pos r h; simp [serpapiGo] at h
  | cons it its ih =>
    intro pos r h
    simp only [serpapiGo] at h
    rcases List.mem_cons.mp h with h | h
    · rw [h]
    · have := ih (pos + 1) r h
      omega

lemma cseGo_pos (its : List ApiItem) :
    ∀ pos r, r ∈ cseGo its pos → pos ≤ r.position := by
  induction its with
  | nil => intro pos r h; simp [cseGo] at h
  | cons it its ih =>
    intro pos r h
    simp only [cseGo] at h
    rcases List.mem_cons.mp h with h | h
    · rw [h]
    · have := ih (pos + 1) r h
      omega

lemma serpapi_rows_ok (kw : String) (items : List ApiItem) (m : Nat) (r : URecord)
    (h : r ∈ (serpapi_search items m).map (unifySerpapi kw)) :
    r.keyword = kw ∧ recordInvariant r := by
  rcases List.mem_map.mp h with ⟨a, ha, rfl⟩
  refine ⟨rfl, ?_, ?_⟩
  · intro hb
    exact absurd hb (by simp [unifySerpapi])
  · intro _
    refine ⟨Or.inr (Or.inl rfl), ?_⟩
    exact serpapiGo_pos (items.take m) 1 a ha

lemma cse_rows_ok (kw : String) (items : List ApiItem) (m : Nat) (r : URecord)
    (h : r ∈ (google_cse_search items m).map (unifyCse kw)) :
    r.keyword = kw ∧ recordInvariant r := by
  rcases List.mem_map.mp h with ⟨a, ha, rfl⟩
  refine ⟨rfl, ?_, ?_⟩
  · intro hb
    exact absurd hb (by simp [unifyCse])
  · intro _
    refine ⟨Or.inr (Or.inr rfl), ?_⟩
    exact cseGo_pos (items.take m) 1 a ha

lemma selenium_rows_ok (kw : String) (p : Page) (m : Nat) (r : URecord)
    (h : r ∈ (extract_serp_from_html p m).map (unifySelenium kw)) :
    r.keyword = kw ∧ recordInvariant r := by
  rcases List.mem_map.mp h with ⟨a, ha, rfl⟩
  refine ⟨rfl, ?_, ?_⟩
  · intro hb
    exact absurd hb (by simp [unifySelenium])
  · intro _
    exact ⟨Or.inl rfl, extract_pos_ge_one p m a ha⟩

lemma sentinel_ok (kw : String) (reason dp : Option String) (r : URecord)
    (h : r ∈ [sentinelRecord kw reason dp]) :
    r.keyword = kw ∧ recordInvariant r := by
  rw [List.mem_singleton] at h
  subst h
  exact ⟨rfl, fun _ => ⟨rfl, rfl, rfl, rfl⟩,
    fun hb => absurd hb (by simp [sentinelRecord])⟩

lemma fallbackCse_ok (kw : String) (m : Nat) (env : FetchEnv)
    (reason dp : Option String) (r : URecord)
    (h : r ∈ fallbackCse kw m env reason dp) :
    r.keyword = kw ∧ recordInvariant r := by
  unfold fallbackCse at h
  split at h
  · split at h
    · exact cse_rows_ok kw _ m r h
    · exact sentinel_ok kw reason dp r h
  · exact sentinel_ok kw reason dp r h

lemma fallbackAfterHeadful_ok (kw : String) (m : Nat) (env : FetchEnv)
    (reason dp : Option String) (r : URecord)
    (h : r ∈ fallbackAfterHeadful kw m env reason dp) :
    r.keyword = kw ∧ recordInvariant r := by
  unfold fallbackAfterHeadful at h
  split at h
  · split at h
    · exact serpapi_rows_ok kw _ m r h
    · exact fallbackCse_ok kw m env reason dp r h
  · exact fallbackCse_ok kw m env reason dp r h

lemma tenacityGo_result (f : Nat → FetchOutcome) :
    ∀ fuel n o m, tenacityGo f fuel n = (.result o, m) → o = f m := by
  intro fuel
  induction fuel with
  | zero =>
    intro n o m h
    unfold tenacityGo at h
    split at h
    · exact absurd h (by simp)
    · simp only [Prod.mk.injEq, RetryOutcome.result.injEq] at h
      rw [h.2] at h
      exact h.1.symm
  | succ fuel ih =>
    intro n o m h
    unfold tenacityGo at h
    split at h
    · exact ih (n + 1) o m h
    · simp only [Prod.mk.injEq, RetryOutcome.result.injEq] at h
      rw [h.2] at h
      exact h.1.symm

lemma runAttempt_success (kw : String) (m : Nat) (e : AttemptEnv)
    (recs : List SerpItem) (h : (runAttempt kw m e).outcome = .success recs) :
    recs = extract_serp_from_html e.page2 m := by
  unfold runAttempt at h
  split at h
  · exact absurd h (by simp)
  · split at h
    · exact absurd h (by simp [exceptionOutcome])
    · split at h
      · exact absurd h (by simp)
      · split at h
        · exact absurd h (by simp [exceptionOutcome])
        · split at h
          · exact absurd h (by simp)
          · split at h
            · exact absurd h (by simp)
            · simp only [FetchOutcome.success.injEq] at h
              exact h.symm

lemma fetch_serp_main_path_ok (kw : String) (m : Nat) (env : FetchEnv)
    (rows : List URecord) (h : fetch_serp_main_path kw m env = .ok rows) :
    ∀ r ∈ rows, r.keyword = kw ∧ recordInvariant r := by
  intro r hr
  unfold fetch_serp_main_path at h
  split at h
  · rename_i recs n heq
    have hok : rows = recs.map (unifySelenium kw) := by
      simpa using h.symm
    unfold tenacityRun at heq
    have hatt := tenacityGo_result _ _ _ _ _ heq
    have hrecs := runAttempt_success kw m (env.attempts n) recs hatt.symm
    rw [hok, hrecs] at hr
    exact selenium_rows_ok kw _ m r hr
  · rename_i reason err dp n heq
    have hok : rows = fallbackAfterHeadful kw m env reason dp := by
      simpa using h.symm
    rw [hok] at hr
    exact fallbackAfterHeadful_ok kw m env reason dp r hr
  · exact absurd h (by simp)

lemma fetch_serp_ok (kw : String) (m : Nat) (af : Bool) (env : FetchEnv)
    (rows : List URecord) (h : fetch_serp kw m af env = .ok rows) :
    ∀ r ∈ rows, r.keyword = kw ∧ recordInvariant r := by
  intro r hr
  unfold fetch_serp at h
  split at h
  · split at h
    · rename_i items heq
      have hok : rows = (serpapi_search items m).map (unifySerpapi kw) := by
        simpa using h.symm
      rw [hok] at hr
      exact serpapi_rows_ok kw items m r hr
    · exact fetch_serp_main_path_ok kw m env rows h r hr
  · exact fetch_serp_main_path_ok kw m env rows h r hr

/-! ## Claim C9 -/

/-- C9 (confirmed): every record in a list returned by fetch_serp
satisfies the data-model invariant: a blocked record has the blocked
source and empty title, snippet and url; an unblocked record has a real
provider source and a position of at least one. -/
theorem claim_C9 (kw : String) (maxItems : Nat) (apiFirst : Bool) (env : FetchEnv)
    (recs : List URecord) (h : fetch_serp kw maxItems apiFirst env = .ok recs) :
    ∀ r ∈ recs, recordInvariant r :=
  fun r hr => (fetch_serp_ok kw maxItems apiFirst env recs h r hr).2

/-- C9 witness: the theorem applied to a concrete api-first run that
returns one serpapi record. -/
theorem claim_C9_witness :
    recordInvariant
      { keyword := "k", title := "T", snippet := "S", url := "U", position := 1,
        source := "serpapi", blocked := false, debug_path := none,
        blocked_reason := none } :=
  claim_C9 "k" 5 true apiOkEnv
    [{ keyword := "k", title := "T", snippet := "S", url := "U", position := 1,
       source := "serpapi", blocked := false, debug_path := none,
       blocked_reason := none }] rfl _ (by simp)

/-! ## Claim C10 -/

/-- C10 counterexample: with no API provider configured and every
browser attempt blocked, that is with every available provider failing,
fetch_serp raises RetryError instead of returning the sentinel record
the claim describes. -/
theorem claim_C10_cex :
    fetch_serp "kw" 10 false noApiEnv = .error "tenacity.RetryError" :=
  rfl

/-- C10 (amended): the sentinel record built by the total-failure branch
of fetch_serp has position zero, below the 1-based minimum of the data
model, so a consumer filtering on a position of at least one drops it;
however the branch itself is only reached if the decorated browser phase
returns a failure outcome, which the retry wrapper never does since it
raises RetryError on exhaustion. -/
theorem claim_C10 (kw : String) (maxItems : Nat) (reason dp : Option String) :
    fallbackAfterHeadful kw maxItems noApiEnv reason dp =
      [sentinelRecord kw reason dp] ∧
    (sentinelRecord kw reason dp).position = 0 ∧
    (fallbackAfterHeadful kw maxItems noApiEnv reason dp).filter
        (fun r => decide (1 ≤ r.position)) = [] := by
  refine ⟨rfl, rfl, ?_⟩
  show List.filter _ [sentinelRecord kw reason dp] = []
  simp [sentinelRecord]

/-! ## Claim C4 -/

lemma wrapperNormalize_keyword (kw : String) (r : URecord) :
    (wrapperNormalize kw r).keyword = r.keyword :=
  rfl

lemma scrapeGo_ok (per : Nat) (af : Bool) (envs : Nat → FetchEnv) :
    ∀ (kws : List String) (i : Nat) (out : List URecord),
      scrapeGo per af envs kws i = .ok out →
      ∃ subs : List (List URecord), out = subs.flatten ∧
        List.Forall₂ (fun kw sub => ∀ r ∈ sub, r.keyword = kw) kws subs := by
  intro kws
  induction kws with
  | nil =>
    intro i out h
    have : ([] : List URecord) = out := by simpa [scrapeGo] using h
    exact ⟨[], by simp [this.symm], List.Forall₂.nil⟩
  | cons kw rest ih =>
    intro i out h
    unfold scrapeGo at h
    split at h
    · exact absurd h (by simp)
    · rename_i rows hrows
      split at h
      · exact absurd h (by simp)
      · rename_i tail htail
        have hout : rows.map (wrapperNormalize kw) ++ tail = out := by
          simpa using h
        obtain ⟨subs, hjoin, hall⟩ := ih (i + 1) tail htail
        refine ⟨rows.map (wrapperNormalize kw) :: subs, ?_, ?_⟩
        · rw [← hout, hjoin]
          simp
        · refine List.Forall₂.cons ?_ hall
          intro r hr
          rcases List.mem_map.mp hr with ⟨r0, hr0, rfl⟩
          rw [wrapperNormalize_keyword]
          exact (fetch_serp_ok kw per af (envs i) rows hrows r0 hr0).1

/-- C4 counterexample: one keyword whose api-first SerpAPI call succeeds
with zero organic results makes the wrapper return an empty list, so the
sub-list for that keyword is empty, refuting the per-keyword
non-emptiness of the claim. -/
theorem claim_C4_cex :
    scrape_keywords_wrapper ["k"] 10 true (fun _ => emptyApiEnv) = .ok [] :=
  rfl

/-- C4 (amended): whenever scrape_keywords_wrapper returns normally, its
output is the concatenation, in keyword submission order, of one
possibly-empty sub-list per keyword, every record of a sub-list carrying
the keyword of that sub-list; sub-lists can be empty, and a keyword whose
browser retries are exhausted makes the wrapper propagate RetryError
instead of returning. -/
theorem claim_C4 (kws : List String) (per : Nat) (af : Bool) (envs : Nat → FetchEnv)
    (out : List URecord) (h : scrape_keywords_wrapper kws per af envs = .ok out) :
    ∃ subs : List (List URecord), out = subs.flatten ∧
      List.Forall₂ (fun kw sub => ∀ r ∈ sub, r.keyword = kw) kws subs :=
  scrapeGo_ok per af envs kws 0 out h

/-- C4 witness: the amended theorem applied to a concrete one-keyword
run. -/
theorem claim_C4_witness :
    ∃ subs : List (List URecord), ([] : List URecord) = subs.flatten ∧
      List.Forall₂ (fun kw sub => ∀ r ∈ sub, r.keyword = kw) ["a"] subs :=
  claim_C4 ["a"] 3 true (fun _ => emptyApiEnv) [] rfl

end SeoIntel
